import Mathlib

/-!
Verification development for the ruche node-management core.

The definitions below are a shallow embedding of the Rust sources:
strings are modelled as lists of characters (ASCII fragment of the
character classes used by the two templates), filesystem paths as lists
of path components, machine integers (u8) as natural numbers with the
panic conditions made explicit where they matter, and fallible
operations as Except / Option values.  Stateful handler code is
modelled by explicit state passing over a World record.
-/

namespace Ruche

/-- Model of Rust format!("\x7b:02\x7d", id) from bee_fn.rs: the decimal
digits of the id, left-padded with zeros to a minimum width of two. -/
def format_id (id : Nat) : List Char :=
  let s := Nat.toDigits 10 id
  List.replicate (2 - s.length) '0' ++ s

/-- The zero-padded two-digit decimal form of a number below 100, written
directly from the spec wording (tens digit then ones digit). -/
def pad2 (id : Nat) : List Char :=
  [Char.ofNat (48 + id / 10), Char.ofNat (48 + id % 10)]

/-- Model of Rust str.replace with pattern "xx": every leftmost
non-overlapping occurrence of the two-character pattern is replaced. -/
def replace_xx : List Char → List Char → List Char
  | [], _ => []
  | [c], _ => [c]
  | c1 :: c2 :: rest, rep =>
    if c1 = 'x' ∧ c2 = 'x' then rep ++ replace_xx rest rep
    else c1 :: replace_xx (c2 :: rest) rep

/-- Matcher for PORT_REGEX from utils/regex.rs: one to three decimal
digits followed by the literal placeholder "xx", anchored both ends. -/
def matches_port_regex (s : List Char) : Bool :=
  3 ≤ s.length && s.length ≤ 5 &&
    (s.take (s.length - 2)).all Char.isDigit &&
    s.drop (s.length - 2) == ['x', 'x']

/-- Word-or-hyphen character class of VOLUME_NAME_REGEX (ASCII model). -/
def isWordChar (c : Char) : Bool :=
  c.isAlphanum || c == '_' || c == '-'

/-- Matcher for VOLUME_NAME_REGEX from utils/regex.rs: a word/hyphen
string, then an optional single character other than the letter x, then
the literal placeholder "xx", anchored both ends. -/
def matches_volume_regex (s : List Char) : Bool :=
  2 ≤ s.length && s.drop (s.length - 2) == ['x', 'x'] &&
    (let p := s.take (s.length - 2)
     p.all isWordChar || (p.dropLast.all isWordChar && p.getLastD 'x' != 'x'))

/-- Error taxonomy of the embedded workflows.  The source carries anyhow
messages / HTTP errors; distinct messages are modelled as distinct
constructors, so two code paths produce equal errors exactly when they
produce the same message shape for the same id. -/
inductive BeeError
  | maxCapacity
  | noFreeId
  | invalidPortTemplate (t : List Char)
  | invalidVolumeTemplate (t : List Char)
  | dirAlreadyExists (p : List (List Char))
  | containerAlreadyExists (n : List Char)
  | missingDir (p : List (List Char))
  | notFound (id : Nat)
  | confirmationRequired (id : Nat)
  deriving DecidableEq, Repr

/-- Network section of config.toml (the two port templates). -/
structure Network where
  api_port : List Char
  p2p_port : List Char
  deriving DecidableEq, Repr

/-- Storage section of config.toml. -/
structure Storage where
  root_path : List (List Char)
  parent_dir_format : List Char
  parent_dir_capacity : Nat
  deriving DecidableEq, Repr

/-- Bee section of config.toml (the per-node flags that get copied into
each record). -/
structure BeeCfg where
  full_node : Bool
  swap_enable : Bool
  reserve_doubling : Bool
  deriving DecidableEq, Repr

/-- The configuration slice used by the embedded workflows. -/
structure Config where
  network : Network
  storage : Storage
  bee : BeeCfg
  deriving DecidableEq, Repr

/-- Durable node record (models/bee.rs BeeData). -/
structure BeeData where
  id : Nat
  neighborhood : List Char
  full_node : Bool
  swap_enable : Bool
  reserve_doubling : Bool
  data_dir : List (List Char)
  deriving DecidableEq, Repr

/-- Derived read-only view (models/bee.rs BeeInfo), restricted to the
fields the claims are about. -/
structure BeeInfo where
  id : Nat
  name : List Char
  neighborhood : List Char
  data_dir : List (List Char)
  api_port : List Char
  p2p_port : List Char
  deriving DecidableEq, Repr

/-- network_fn.rs get_port: validate the template on every call, then
substitute the placeholder with the formatted id. -/
def get_port (id : Nat) (base_port : List Char) : Except BeeError (List Char) :=
  if matches_port_regex base_port then
    .ok (replace_xx base_port (format_id id))
  else .error (.invalidPortTemplate base_port)

/-- network_fn.rs get_api_port. -/
def get_api_port (config : Config) (id : Nat) : Except BeeError (List Char) :=
  get_port id config.network.api_port

/-- network_fn.rs get_p2p_port. -/
def get_p2p_port (config : Config) (id : Nat) : Except BeeError (List Char) :=
  get_port id config.network.p2p_port

/-- storage_fn.rs get_dir_id, on the happy domain where the u8
arithmetic does not panic (see get_dir_id_checked for the panics). -/
def get_dir_id (config : Config) (bee_id : Nat) : Nat :=
  ((bee_id - 1) / config.storage.parent_dir_capacity) + 1

/-- The same u8 computation with its panic branches made explicit: the
unguarded subtraction underflows at id 0 and the division panics at
capacity 0; the trailing increment cannot overflow for inputs below 256,
so no further branch exists. -/
def get_dir_id_checked (bee_id cap : Nat) : Option Nat :=
  if bee_id = 0 then none
  else if cap = 0 then none
  else some (((bee_id - 1) / cap) + 1)

/-- storage_fn.rs get_parent_dir_name: validate the directory template on
every call, then substitute the placeholder with the formatted parent
index. -/
def get_parent_dir_name (config : Config) (bee_id : Nat) : Except BeeError (List Char) :=
  if matches_volume_regex config.storage.parent_dir_format then
    .ok (replace_xx config.storage.parent_dir_format (format_id (get_dir_id config bee_id)))
  else .error (.invalidVolumeTemplate config.storage.parent_dir_format)

/-- bee_fn.rs get_node_name: the literal prefix node_ then the formatted
id. -/
def get_node_name (id : Nat) : List Char :=
  ['n', 'o', 'd', 'e', '_'] ++ format_id id

/-- storage_fn.rs get_node_path: root joined with the parent directory
name joined with the node name, as a component list. -/
def get_node_path (config : Config) (bee_id : Nat) : Except BeeError (List (List Char)) :=
  match get_parent_dir_name config bee_id with
  | .error e => .error e
  | .ok parent => .ok (config.storage.root_path ++ [parent, get_node_name bee_id])

/-- core/database.rs Database.add_bee: insert_one appends a document to
the collection. -/
def add_bee (st : List BeeData) (bee : BeeData) : List BeeData :=
  st ++ [bee]

/-- core/database.rs Database.count_bees: count_documents. -/
def count_bees (st : List BeeData) : Nat :=
  st.length

/-- core/database.rs find_one on the id field: first stored document
whose id matches. -/
def find_first (bee_id : Nat) : List BeeData → Option BeeData
  | [] => none
  | r :: rest => if r.id = bee_id then some r else find_first bee_id rest

/-- core/database.rs Database.get_bee. -/
def get_bee (st : List BeeData) (bee_id : Nat) : Option BeeData :=
  find_first bee_id st

/-- Ordered insertion by id, the building block of the sorted listing. -/
def insertById (r : BeeData) : List BeeData → List BeeData
  | [] => [r]
  | s :: rest => if r.id ≤ s.id then r :: s :: rest else s :: insertById r rest

/-- Ascending sort by the id field, modelling the sort clause of the
find query in Database.get_bees. -/
def sortById : List BeeData → List BeeData
  | [] => []
  | r :: rest => insertById r (sortById rest)

/-- core/database.rs Database.get_bees: all documents, sorted ascending
by id. -/
def get_bees (st : List BeeData) : List BeeData :=
  sortById st

/-- core/database.rs delete_one on the id field: remove the first stored
document whose id matches (no-op when absent). -/
def delete_first (bee_id : Nat) : List BeeData → List BeeData
  | [] => []
  | r :: rest => if r.id = bee_id then rest else r :: delete_first bee_id rest

/-- core/database.rs Database.delete_bee. -/
def delete_bee (st : List BeeData) (bee_id : Nat) : List BeeData :=
  delete_first bee_id st

/-- bee_fn.rs ensure_capacity: false exactly when the registry already
holds 99 or more records. -/
def ensure_capacity (count : Nat) : Bool :=
  if 99 ≤ count then false else true

/-- bee_fn.rs get_new_bee_id: collect the Rust range 1..99 (the values 1
through 98), retain the ids no existing bee holds, return the first
survivor; none models the anyhow error "Unable to get new bee id". -/
def get_new_bee_id (bees : List BeeData) : Option Nat :=
  (bees.foldl (fun acc bee => acc.filter (fun id => id != bee.id)) (List.range' 1 98)).head?

/-- bee_fn.rs new_bee_data: copy the configuration flags next to the
allocated id, neighborhood and directory. -/
def new_bee_data (config : Config) (id : Nat) (neighborhood : List Char)
    (data_dir : List (List Char)) : BeeData :=
  { id := id
    neighborhood := neighborhood
    full_node := config.bee.full_node
    swap_enable := config.bee.swap_enable
    reserve_doubling := config.bee.reserve_doubling
    data_dir := data_dir }

/-- bee_fn.rs data_to_info: resolve both ports (api first), then build
the derived view. -/
def data_to_info (config : Config) (data : BeeData) : Except BeeError BeeInfo :=
  match get_api_port config data.id with
  | .error e => .error e
  | .ok api =>
    match get_p2p_port config data.id with
    | .error e => .error e
    | .ok p2p =>
      .ok { id := data.id
            name := get_node_name data.id
            neighborhood := data.neighborhood
            data_dir := data.data_dir
            api_port := api
            p2p_port := p2p }

/-- Observable machine state shared by the handlers: registry contents,
existing directory paths, existing container names, and the in-memory
deletion-request ledger (id, request timestamp). -/
structure World where
  bees : List BeeData
  dirs : List (List (List Char))
  containers : List (List Char)
  tickets : List (Nat × Nat)
  deriving DecidableEq, Repr

/-- Externally visible side effects of a workflow, in execution order. -/
inductive Event
  | dirCreated (p : List (List Char))
  | containerCreated (n : List Char)
  | containerStarted (n : List Char)
  | containerRemoved (n : List Char)
  | dirRemoved (p : List (List Char))
  | recordAdded (id : Nat)
  | recordDeleted (id : Nat)
  deriving DecidableEq, Repr

/-- storage_fn.rs create_node_dir: derive the path, fail when it already
exists, otherwise create it (permission bits are not modelled). -/
def create_node_dir (config : Config) (bee_id : Nat) (w : World) :
    Except BeeError (List (List Char) × World) :=
  match get_node_path config bee_id with
  | .error e => .error e
  | .ok p =>
    if p ∈ w.dirs then .error (.dirAlreadyExists p)
    else .ok (p, { w with dirs := p :: w.dirs })

/-- handlers/bee_handlers.rs create_bee: capacity gate, id allocation,
directory creation, record and view construction, container creation,
then the registry write, with the emitted side effects in order.  The
neighborhood is the reply of the external lookup collaborator. -/
def create_bee (config : Config) (neighborhood : List Char) (w : World) :
    Except BeeError (World × List Event × BeeInfo) :=
  if !ensure_capacity (count_bees w.bees) then .error .maxCapacity
  else
    match get_new_bee_id w.bees with
    | none => .error .noFreeId
    | some new_bee_id =>
      match create_node_dir config new_bee_id w with
      | .error e => .error e
      | .ok (data_dir, w1) =>
        match data_to_info config (new_bee_data config new_bee_id neighborhood data_dir) with
        | .error e => .error e
        | .ok bee =>
          if bee.name ∈ w1.containers then .error (.containerAlreadyExists bee.name)
          else if !ensure_capacity (count_bees w1.bees) then .error .maxCapacity
          else
            .ok ({ w1 with
                     containers := bee.name :: w1.containers,
                     bees := add_bee w1.bees
                       (new_bee_data config new_bee_id neighborhood data_dir) },
                 [Event.dirCreated data_dir, Event.containerCreated bee.name,
                  Event.recordAdded new_bee_id],
                 bee)

/-- Timestamp stored in the deletion ledger for an id, if any. -/
def ticket_lookup (bee_id : Nat) (tickets : List (Nat × Nat)) : Option Nat :=
  match tickets.find? (fun t => t.1 == bee_id) with
  | some t => some t.2
  | none => none

/-- The confirmation-window test of handlers/bee_handlers.rs delete_bee:
a ticket exists, its elapsed time is well defined (the stored timestamp
is not in the future), and it is strictly below 30 seconds. -/
def has_made_request (now bee_id : Nat) (tickets : List (Nat × Nat)) : Bool :=
  match ticket_lookup bee_id tickets with
  | some ts => decide (ts ≤ now) && decide (now - ts < 30)
  | none => false

/-- handlers/bee_handlers.rs request_bee_deletion: refresh the ledger
entry for a registered node with the current time. -/
def request_bee_deletion (now bee_id : Nat) (w : World) : World × Option BeeError :=
  match find_first bee_id w.bees with
  | none => (w, some (.notFound bee_id))
  | some _ =>
    ({ w with tickets := (bee_id, now) :: w.tickets.filter (fun t => t.1 != bee_id) }, none)

/-- bee_fn.rs delete_bee: recursively remove the node directory (fails
when it does not exist, leaving everything untouched), then delete the
registry record. -/
def delete_bee_service (config : Config) (bee_id : Nat) (w : World) :
    World × Option BeeError :=
  match get_node_path config bee_id with
  | .error e => (w, some e)
  | .ok p =>
    if p ∈ w.dirs then
      ({ w with dirs := w.dirs.erase p, bees := delete_first bee_id w.bees }, none)
    else (w, some (.missingDir p))

/-- handlers/bee_handlers.rs delete_bee: look the node up, enforce the
confirmation window, run the delete step, and clear the ticket only
after that step succeeded. -/
def delete_bee_handler (config : Config) (now bee_id : Nat) (w : World) :
    World × Option BeeError :=
  match find_first bee_id w.bees with
  | none => (w, some (.notFound bee_id))
  | some _ =>
    if !has_made_request now bee_id w.tickets then
      (w, some (.confirmationRequired bee_id))
    else
      match delete_bee_service config bee_id w with
      | (w1, some e) => (w1, some e)
      | (w1, none) =>
        ({ w1 with tickets := w1.tickets.filter (fun t => t.1 != bee_id) }, none)

/-- Registry record carrying nothing but an id, used to build concrete
registry contents. -/
def sample_bee (i : Nat) : BeeData :=
  { id := i, neighborhood := [], full_node := false, swap_enable := false,
    reserve_doubling := false, data_dir := [] }

/-- Concrete configuration mirroring the repository test fixtures: port
templates 17xx and 18xx, directory template swarm_data_xx, capacity 4. -/
def cfgA : Config :=
  { network := { api_port := "17xx".toList, p2p_port := "18xx".toList }
    storage := { root_path := ["media".toList]
                 parent_dir_format := "swarm_data_xx".toList
                 parent_dir_capacity := 4 }
    bee := { full_node := true, swap_enable := true, reserve_doubling := false } }

/-- Node directory of id 1 under cfgA. -/
def dirA1 : List (List Char) :=
  ["media".toList, "swarm_data_01".toList, "node_01".toList]

/-- Concrete machine state holding one registered node with id 1, its
directory, its running container, and a fresh deletion ticket. -/
def worldA : World :=
  { bees := [sample_bee 1]
    dirs := [dirA1]
    containers := ["node_01".toList]
    tickets := [(1, 100)] }

/-- Empty machine state. -/
def world0 : World :=
  { bees := [], dirs := [], containers := [], tickets := [] }

/-- Variant of worldA whose node directory is missing, so the delete
step fails after the confirmation gate. -/
def worldB : World :=
  { bees := [sample_bee 1]
    dirs := []
    containers := ["node_01".toList]
    tickets := [(1, 100)] }

/-- Recognizer for container-start events. -/
def is_start_event : Event → Bool
  | Event.containerStarted _ => true
  | _ => false

/-- The record provisioning writes for id 1 under cfgA. -/
def beeDataA : BeeData :=
  { id := 1, neighborhood := "nb".toList, full_node := true, swap_enable := true,
    reserve_doubling := false, data_dir := dirA1 }

/-- The derived view provisioning returns for id 1 under cfgA. -/
def beeInfoA : BeeInfo :=
  { id := 1, name := "node_01".toList, neighborhood := "nb".toList, data_dir := dirA1,
    api_port := "1701".toList, p2p_port := "1801".toList }

/-- The event trace of the successful provisioning run under cfgA. -/
def traceA : List Event :=
  [Event.dirCreated dirA1, Event.containerCreated "node_01".toList, Event.recordAdded 1]

/-- The machine state after that provisioning run. -/
def worldA1 : World :=
  { bees := [beeDataA], dirs := [dirA1], containers := ["node_01".toList], tickets := [] }

theorem format_id_eq_pad2_fin : ∀ i : Fin 100, format_id i.val = pad2 i.val := by
  decide

theorem format_id_eq_pad2 {n : Nat} (h : n < 100) : format_id n = pad2 n :=
  format_id_eq_pad2_fin ⟨n, h⟩

theorem char_ofNat_digit_inj :
    ∀ a b : Fin 10, Char.ofNat (48 + a.val) = Char.ofNat (48 + b.val) → a = b := by
  decide

theorem pad2_inj {i j : Nat} (hi : i < 100) (hj : j < 100) (h : pad2 i = pad2 j) :
    i = j := by
  unfold pad2 at h
  simp only [List.cons.injEq, and_true] at h
  obtain ⟨ha, hb⟩ := h
  have d1 : i / 10 < 10 := by omega
  have d2 : j / 10 < 10 := by omega
  have m1 : i % 10 < 10 := by omega
  have m2 : j % 10 < 10 := by omega
  have e1 := congrArg Fin.val (char_ofNat_digit_inj ⟨i / 10, d1⟩ ⟨j / 10, d2⟩ ha)
  have e2 := congrArg Fin.val (char_ofNat_digit_inj ⟨i % 10, m1⟩ ⟨j % 10, m2⟩ hb)
  simp only at e1 e2
  omega

theorem isDigit_ne_x {c : Char} (h : c.isDigit = true) : c ≠ 'x' := by
  intro he
  rw [he] at h
  exact absurd h (by decide)

theorem replace_xx_append (rep : List Char) :
    ∀ d : List Char, (∀ c ∈ d, c ≠ 'x') →
      replace_xx (d ++ ['x', 'x']) rep = d ++ rep
  | [], _ => by simp [replace_xx]
  | [c], h => by
    have hc : c ≠ 'x' := h c (by simp)
    simp [replace_xx, hc]
  | c1 :: c2 :: d, h => by
    have hc : c1 ≠ 'x' := h c1 (by simp)
    have ih := replace_xx_append rep (c2 :: d) (fun c hcm => h c (by simp [hcm]))
    simp only [List.cons_append, replace_xx, hc, false_and, if_false, List.append_eq]
    exact congrArg (fun l => c1 :: l) ih

theorem port_regex_decompose {t : List Char} (h : matches_port_regex t = true) :
    ∃ d, t = d ++ ['x', 'x'] ∧ d ≠ [] ∧ ∀ c ∈ d, c.isDigit = true := by
  unfold matches_port_regex at h
  simp only [Bool.and_eq_true, decide_eq_true_eq, List.all_eq_true, beq_iff_eq] at h
  obtain ⟨⟨⟨h3, _⟩, hdig⟩, hxx⟩ := h
  refine ⟨t.take (t.length - 2), ?_, ?_, hdig⟩
  · conv_lhs => rw [← List.take_append_drop (t.length - 2) t]
    rw [hxx]
  · have hl : (t.take (t.length - 2)).length = t.length - 2 := by
      rw [List.length_take]
      omega
    intro hnil
    rw [hnil] at hl
    simp at hl
    omega

theorem get_port_ok {id : Nat} {t : List Char} (h : matches_port_regex t = true) :
    get_port id t = .ok (replace_xx t (format_id id)) := by
  simp [get_port, h]

theorem get_node_path_ok (config : Config) (id : Nat)
    (hv : matches_volume_regex config.storage.parent_dir_format = true) :
    get_node_path config id = .ok (config.storage.root_path ++
      [replace_xx config.storage.parent_dir_format (format_id (get_dir_id config id)),
       get_node_name id]) := by
  simp [get_node_path, get_parent_dir_name, hv]

theorem dir_id_le99 (config : Config) {id : Nat}
    (_hc : 1 ≤ config.storage.parent_dir_capacity) (h2 : id ≤ 99) :
    get_dir_id config id ≤ 99 := by
  unfold get_dir_id
  have : (id - 1) / config.storage.parent_dir_capacity ≤ id - 1 := Nat.div_le_self _ _
  omega

set_option maxRecDepth 10000 in
/-- C1: with exactly the ids 1 through 98 registered, the capacity check
still reports room (count 98 of 99), id 99 is not held by any record,
yet the allocator fails instead of returning 99: the scanned Rust range
1..99 stops at 98, contradicting the claimed closed range [1,99]. -/
theorem allocator_never_reaches_id99 :
    ensure_capacity (count_bees ((List.range' 1 98).map sample_bee)) = true ∧
    (∀ b ∈ (List.range' 1 98).map sample_bee, b.id ≠ 99) ∧
    get_new_bee_id ((List.range' 1 98).map sample_bee) = none := by
  refine ⟨by decide, by decide, by decide⟩

/-- C6: for every id in [1,99], a template matching the port pattern
resolves to its digit prefix followed by the zero-padded two-digit id,
and any non-matching template fails with the invalid-template error on
that very call. -/
theorem port_template_resolution (id : Nat) (h1 : 1 ≤ id) (h2 : id ≤ 99)
    (tmpl : List Char) :
    (matches_port_regex tmpl = true →
      ∃ d, d ≠ [] ∧ (∀ c ∈ d, c.isDigit = true) ∧ tmpl = d ++ ['x', 'x'] ∧
        get_port id tmpl = .ok (d ++ pad2 id)) ∧
    (matches_port_regex tmpl = false →
      get_port id tmpl = .error (.invalidPortTemplate tmpl)) := by
  constructor
  · intro hm
    obtain ⟨d, hd, hne, hdig⟩ := port_regex_decompose hm
    refine ⟨d, hne, hdig, hd, ?_⟩
    rw [get_port_ok hm, hd,
      replace_xx_append (format_id id) d (fun c hc => isDigit_ne_x (hdig c hc)),
      format_id_eq_pad2 (by omega)]
  · intro hm
    simp [get_port, hm]

/-- C6 witness: the theorem applied at id 5 with template 17xx, together
with the evaluated example resolve(5, 17xx) = 1705. -/
theorem port_template_resolution_witness :
    (∃ d, d ≠ [] ∧ (∀ c ∈ d, c.isDigit = true) ∧ "17xx".toList = d ++ ['x', 'x'] ∧
      get_port 5 "17xx".toList = .ok (d ++ pad2 5)) ∧
    get_port 5 "17xx".toList = .ok "1705".toList ∧
    get_port 5 "1705".toList = .error (.invalidPortTemplate "1705".toList) ∧
    get_port 5 "1x70".toList = .error (.invalidPortTemplate "1x70".toList) :=
  ⟨(port_template_resolution 5 (by decide) (by decide) "17xx".toList).1 (by decide),
   by rfl,
   (port_template_resolution 5 (by decide) (by decide) "1705".toList).2 (by decide),
   (port_template_resolution 5 (by decide) (by decide) "1x70".toList).2 (by decide)⟩

/-- C7: for ids in [1,99] and positive capacity, the parent index is
((id - 1) div capacity) + 1, and with a valid directory template the
derived node path is root, then the template with the placeholder
replaced by the zero-padded parent index, then node_ followed by the
zero-padded id. -/
theorem node_path_formula (config : Config) (id : Nat) (h1 : 1 ≤ id) (h2 : id ≤ 99)
    (hc : 1 ≤ config.storage.parent_dir_capacity)
    (hv : matches_volume_regex config.storage.parent_dir_format = true) :
    get_dir_id config id = (id - 1) / config.storage.parent_dir_capacity + 1 ∧
    get_node_path config id = .ok (config.storage.root_path ++
      [replace_xx config.storage.parent_dir_format (pad2 (get_dir_id config id)),
       ['n', 'o', 'd', 'e', '_'] ++ pad2 id]) := by
  refine ⟨rfl, ?_⟩
  rw [get_node_path_ok config id hv,
    format_id_eq_pad2 (by have := dir_id_le99 config hc h2; omega)]
  unfold get_node_name
  rw [format_id_eq_pad2 (by omega)]

/-- C7 witness: the theorem applied under cfgA (capacity 4, template
swarm_data_xx) at ids 5 and 99, normalised to the spec examples
path(5) = R/swarm_data_02/node_05 and path(99) = R/swarm_data_25/node_99. -/
theorem node_path_formula_witness :
    get_node_path cfgA 5 =
      .ok ["media".toList, "swarm_data_02".toList, "node_05".toList] ∧
    get_node_path cfgA 99 =
      .ok ["media".toList, "swarm_data_25".toList, "node_99".toList] := by
  constructor
  · rw [(node_path_formula cfgA 5 (by decide) (by decide) (by decide) (by decide)).2]
    exact congrArg Except.ok (by decide)
  · rw [(node_path_formula cfgA 99 (by decide) (by decide) (by decide) (by decide)).2]
    exact congrArg Except.ok (by decide)

/-- C8: two distinct ids in [1,99] under one configuration with a valid
directory template and one valid port template derive distinct node
paths and distinct port strings. -/
theorem derived_resources_disjoint (config : Config) (tmpl : List Char) (i j : Nat)
    (hi1 : 1 ≤ i) (hi2 : i ≤ 99) (hj1 : 1 ≤ j) (hj2 : j ≤ 99) (hij : i ≠ j)
    (hv : matches_volume_regex config.storage.parent_dir_format = true)
    (hp : matches_port_regex tmpl = true) :
    get_node_path config i ≠ get_node_path config j ∧
    get_port i tmpl ≠ get_port j tmpl := by
  have hfmt : format_id i ≠ format_id j := by
    rw [format_id_eq_pad2 (by omega : i < 100), format_id_eq_pad2 (by omega : j < 100)]
    intro h
    exact hij (pad2_inj (by omega) (by omega) h)
  constructor
  · rw [get_node_path_ok config i hv, get_node_path_ok config j hv]
    intro h
    simp only [Except.ok.injEq] at h
    have h2 := List.append_cancel_left h
    simp only [List.cons.injEq, and_true] at h2
    have h3 : get_node_name i = get_node_name j := h2.2
    unfold get_node_name at h3
    exact hfmt (List.append_cancel_left h3)
  · rw [get_port_ok hp, get_port_ok hp]
    obtain ⟨d, hd, _, hdig⟩ := port_regex_decompose hp
    intro h
    simp only [Except.ok.injEq, hd] at h
    rw [replace_xx_append (format_id i) d (fun c hc => isDigit_ne_x (hdig c hc)),
      replace_xx_append (format_id j) d (fun c hc => isDigit_ne_x (hdig c hc))] at h
    exact hfmt (List.append_cancel_left h)

/-- C8 witness: the theorem applied under cfgA to the ids 2 and 7 with
port template 17xx. -/
theorem derived_resources_disjoint_witness :
    get_node_path cfgA 2 ≠ get_node_path cfgA 7 ∧
    get_port 2 "17xx".toList ≠ get_port 7 "17xx".toList :=
  derived_resources_disjoint cfgA "17xx".toList 2 7 (by decide) (by decide)
    (by decide) (by decide) (by decide) (by decide) (by decide)

/-- C10: over the u8 domain the parent-index computation is panic-free
exactly when the id and the configured capacity are both at least 1 (id
0 underflows the subtraction, capacity 0 divides by zero), and on every
id in [1,99] with positive capacity it returns the value the unchecked
function computes. -/
theorem dir_id_panic_domain (bee_id cap : Nat) (hb : bee_id ≤ 255) (hcap : cap ≤ 255) :
    ((get_dir_id_checked bee_id cap).isSome = true ↔ 1 ≤ bee_id ∧ 1 ≤ cap) ∧
    (∀ config : Config, config.storage.parent_dir_capacity = cap →
      1 ≤ bee_id → bee_id ≤ 99 → 1 ≤ cap →
      get_dir_id_checked bee_id cap = some (get_dir_id config bee_id)) := by
  constructor
  · unfold get_dir_id_checked
    split
    · simp
      omega
    · split
      · simp
        omega
      · simp
        omega
  · intro config hcfg h1 _ hc
    unfold get_dir_id_checked get_dir_id
    rw [if_neg (by omega), if_neg (by omega), hcfg]

/-- C10 witness: the theorem applied at id 5 with capacity 4 under cfgA,
including the panic cases at id 0 and capacity 0. -/
theorem dir_id_panic_domain_witness :
    ((get_dir_id_checked 5 4).isSome = true ↔ 1 ≤ 5 ∧ 1 ≤ 4) ∧
    get_dir_id_checked 5 4 = some (get_dir_id cfgA 5) ∧
    get_dir_id_checked 0 4 = none ∧
    get_dir_id_checked 5 0 = none :=
  ⟨(dir_id_panic_domain 5 4 (by decide) (by decide)).1,
   (dir_id_panic_domain 5 4 (by decide) (by decide)).2 cfgA (by decide)
     (by decide) (by decide) (by decide),
   by decide, by decide⟩

theorem foldl_add_bee (l : List BeeData) : ∀ s, l.foldl add_bee s = s ++ l := by
  induction l with
  | nil => simp
  | cons r rest ih =>
    intro s
    rw [List.foldl_cons, ih]
    simp [add_bee]

theorem insertById_perm (r : BeeData) (l : List BeeData) :
    (insertById r l).Perm (r :: l) := by
  induction l with
  | nil => simp [insertById]
  | cons s rest ih =>
    unfold insertById
    split
    · exact .refl _
    · exact (ih.cons s).trans (List.Perm.swap r s rest)

theorem sortById_perm (l : List BeeData) : (sortById l).Perm l := by
  induction l with
  | nil => simp [sortById]
  | cons r rest ih =>
    unfold sortById
    exact (insertById_perm r (sortById rest)).trans (ih.cons r)

theorem insertById_pairwise (r : BeeData) (l : List BeeData)
    (h : l.Pairwise (fun a b => a.id ≤ b.id)) :
    (insertById r l).Pairwise (fun a b => a.id ≤ b.id) := by
  induction l with
  | nil => simp [insertById]
  | cons s rest ih =>
    rw [List.pairwise_cons] at h
    obtain ⟨hs, hrest⟩ := h
    unfold insertById
    split
    · rename_i hle
      rw [List.pairwise_cons]
      refine ⟨?_, List.pairwise_cons.mpr ⟨hs, hrest⟩⟩
      intro b hb
      rcases List.mem_cons.mp hb with rfl | hb
      · exact hle
      · exact le_trans hle (hs b hb)
    · rename_i hgt
      rw [List.pairwise_cons]
      refine ⟨?_, ih hrest⟩
      intro b hb
      rcases List.mem_cons.mp ((insertById_perm r rest).mem_iff.mp hb) with rfl | hb2
      · omega
      · exact hs b hb2

theorem sortById_pairwise (l : List BeeData) :
    (sortById l).Pairwise (fun a b => a.id ≤ b.id) := by
  induction l with
  | nil => simp [sortById]
  | cons r rest ih =>
    unfold sortById
    exact insertById_pairwise r (sortById rest) ih

theorem length_delete_first {i : Nat} :
    ∀ l : List BeeData, 1 ≤ l.countP (fun r => decide (r.id = i)) →
      (delete_first i l).length + 1 = l.length
  | [], h => by simp at h
  | r :: rest, h => by
    unfold delete_first
    split
    · simp
    · rename_i hne
      rw [List.countP_cons] at h
      simp only [hne, decide_eq_true_eq, if_false, decide_eq_false_iff_not, add_zero,
        if_neg hne] at h
      have := length_delete_first rest h
      simp only [List.length_cons]
      omega

theorem find_first_eq_none {i : Nat} :
    ∀ l : List BeeData, (∀ r ∈ l, r.id ≠ i) → find_first i l = none
  | [], _ => rfl
  | r :: rest, h => by
    unfold find_first
    rw [if_neg (h r (by simp))]
    exact find_first_eq_none rest (fun x hx => h x (by simp [hx]))

theorem no_match_in_delete_first {i : Nat} :
    ∀ l : List BeeData, l.countP (fun r => decide (r.id = i)) ≤ 1 →
      ∀ r ∈ delete_first i l, r.id ≠ i
  | [], _, r, hr => by simp [delete_first] at hr
  | s :: rest, h, r, hr => by
    rw [List.countP_cons] at h
    unfold delete_first at hr
    by_cases hs : s.id = i
    · rw [if_pos hs] at hr
      rw [if_pos (by simp [hs])] at h
      have h0 : rest.countP (fun r => decide (r.id = i)) = 0 := by omega
      intro he
      have hm := List.countP_eq_zero.mp h0 r hr
      simp [he] at hm
    · rw [if_neg hs] at hr
      rw [if_neg (by simp [hs]), add_zero] at h
      rcases List.mem_cons.mp hr with rfl | hr2
      · exact hs
      · exact no_match_in_delete_first rest h r hr2

/-- C9: adding records with ids 1, 3 and 5 in any insertion order yields
a registry whose listing is those records sorted ascending by id, whose
count is 3, and after deleting id 3 the count is 2 and id 3 is absent. -/
theorem registry_list_count_delete (r1 r3 r5 : BeeData)
    (h1 : r1.id = 1) (h3 : r3.id = 3) (h5 : r5.id = 5)
    (l : List BeeData) (hp : l.Perm [r1, r3, r5]) :
    (get_bees (l.foldl add_bee [])).map BeeData.id = [1, 3, 5] ∧
    (get_bees (l.foldl add_bee [])).Perm (l.foldl add_bee []) ∧
    count_bees (l.foldl add_bee []) = 3 ∧
    count_bees (delete_bee (l.foldl add_bee []) 3) = 2 ∧
    get_bee (delete_bee (l.foldl add_bee []) 3) 3 = none := by
  have hst : l.foldl add_bee [] = l := by rw [foldl_add_bee]; simp
  rw [hst]
  have hcnt : l.countP (fun r => decide (r.id = 3)) = 1 := by
    rw [hp.countP_eq]
    simp [List.countP_cons, h1, h3, h5]
  refine ⟨?_, sortById_perm l, ?_, ?_, ?_⟩
  · have hperm2 : (sortById l).Perm [r1, r3, r5] := (sortById_perm l).trans hp
    have hmap : ((sortById l).map BeeData.id).Perm [1, 3, 5] := by
      have := hperm2.map BeeData.id
      simpa [h1, h3, h5] using this
    have hpair : ((sortById l).map BeeData.id).Pairwise (· ≤ ·) := by
      exact List.Pairwise.map BeeData.id (fun a b hab => hab) (sortById_pairwise l)
    exact List.eq_of_perm_of_sorted hmap hpair (by decide)
  · unfold count_bees
    rw [hp.length_eq]
    rfl
  · unfold count_bees delete_bee
    have := @length_delete_first 3 l (by omega)
    rw [hp.length_eq] at this
    simpa using this
  · unfold get_bee delete_bee
    exact find_first_eq_none _ (@no_match_in_delete_first 3 l (by omega))

/-- C9 witness: the theorem applied to three concrete records inserted
in the order 5, 1, 3. -/
theorem registry_list_count_delete_witness :
    (get_bees ([sample_bee 5, sample_bee 1, sample_bee 3].foldl add_bee [])).map
      BeeData.id = [1, 3, 5] ∧
    (get_bees ([sample_bee 5, sample_bee 1, sample_bee 3].foldl add_bee [])).Perm
      ([sample_bee 5, sample_bee 1, sample_bee 3].foldl add_bee []) ∧
    count_bees ([sample_bee 5, sample_bee 1, sample_bee 3].foldl add_bee []) = 3 ∧
    count_bees (delete_bee ([sample_bee 5, sample_bee 1, sample_bee 3].foldl add_bee []) 3) = 2 ∧
    get_bee (delete_bee ([sample_bee 5, sample_bee 1, sample_bee 3].foldl add_bee []) 3) 3 =
      none :=
  registry_list_count_delete (sample_bee 1) (sample_bee 3) (sample_bee 5)
    (by rfl) (by rfl) (by rfl) [sample_bee 5, sample_bee 1, sample_bee 3] (by decide)

theorem delete_handler_no_ticket (config : Config) (now bee_id : Nat) (w : World)
    (r : BeeData) (hreg : find_first bee_id w.bees = some r)
    (hhas : has_made_request now bee_id w.tickets = false) :
    delete_bee_handler config now bee_id w = (w, some (.confirmationRequired bee_id)) := by
  unfold delete_bee_handler
  rw [hreg, hhas]
  rfl

theorem delete_handler_ticket_ok (config : Config) (now bee_id : Nat) (w : World)
    (r : BeeData) (hreg : find_first bee_id w.bees = some r)
    (hhas : has_made_request now bee_id w.tickets = true) :
    delete_bee_handler config now bee_id w =
      (match delete_bee_service config bee_id w with
       | (w1, some e) => (w1, some e)
       | (w1, none) =>
         ({ w1 with tickets := w1.tickets.filter (fun t => t.1 != bee_id) }, none)) := by
  unfold delete_bee_handler
  rw [hreg, hhas]
  rfl

theorem delete_service_ok (config : Config) (bee_id : Nat) (w : World)
    (p : List (List Char)) (hpath : get_node_path config bee_id = .ok p)
    (hdir : p ∈ w.dirs) :
    delete_bee_service config bee_id w =
      ({ w with dirs := w.dirs.erase p, bees := delete_first bee_id w.bees }, none) := by
  unfold delete_bee_service
  rw [hpath]
  simp [hdir]

theorem delete_service_fail_world (config : Config) (bee_id : Nat) (w : World)
    (e : BeeError) (h : (delete_bee_service config bee_id w).2 = some e) :
    (delete_bee_service config bee_id w).1 = w := by
  unfold delete_bee_service at *
  split at h
  · rfl
  · split at h
    · simp at h
    · rename_i hmem
      rw [if_neg hmem]

theorem ticket_window_iff (now bee_id : Nat) (tickets : List (Nat × Nat)) :
    has_made_request now bee_id tickets = true ↔
      ∃ ts, ticket_lookup bee_id tickets = some ts ∧ ts ≤ now ∧ now - ts < 30 := by
  rcases hlook : ticket_lookup bee_id tickets with _ | ts
  · simp [has_made_request, hlook]
  · simp [has_made_request, hlook]

/-- C2 (counterexample): under cfgA a confirmed delete of node 1
succeeds, removes the directory and the registry record and clears the
ticket, yet the node's container node_01 is still present afterwards:
no step of the workflow removes containers. -/
theorem confirmed_delete_keeps_container :
    delete_bee_handler cfgA 110 1 worldA =
      ({ bees := [], dirs := [], containers := ["node_01".toList], tickets := [] }, none) ∧
    "node_01".toList ∈ (delete_bee_handler cfgA 110 1 worldA).1.containers := by
  constructor
  · rfl
  · decide

/-- C2 (amended): a successful confirmed delete recursively removes the
node directory, deletes the registry record and clears the deletion
ticket, while the container set is left untouched. -/
theorem confirmed_delete_effects (config : Config) (now bee_id : Nat) (w w1 : World)
    (h : delete_bee_handler config now bee_id w = (w1, none)) :
    (∃ p, get_node_path config bee_id = .ok p ∧ p ∈ w.dirs ∧ w1.dirs = w.dirs.erase p) ∧
    w1.bees = delete_first bee_id w.bees ∧
    w1.containers = w.containers ∧
    w1.tickets = w.tickets.filter (fun t => t.1 != bee_id) := by
  unfold delete_bee_handler at h
  split at h
  · simp at h
  · split at h
    · simp at h
    · split at h
      · simp at h
      · rename_i w2 heq
        obtain ⟨rfl, -⟩ := Prod.mk.injEq .. ▸ h
        unfold delete_bee_service at heq
        split at heq
        · simp at heq
        · rename_i p hp
          split at heq
          · rename_i hmem
            obtain ⟨rfl, -⟩ := Prod.mk.injEq .. ▸ heq
            exact ⟨⟨p, hp, hmem, rfl⟩, rfl, rfl, rfl⟩
          · simp at heq

/-- C2 (amended) witness: the theorem applied to the concrete successful
run over worldA. -/
theorem confirmed_delete_effects_witness :
    (∃ p, get_node_path cfgA 1 = .ok p ∧ p ∈ worldA.dirs ∧
      (({ bees := [], dirs := [], containers := ["node_01".toList],
          tickets := [] } : World)).dirs = worldA.dirs.erase p) ∧
    (({ bees := [], dirs := [], containers := ["node_01".toList],
        tickets := [] } : World)).bees = delete_first 1 worldA.bees ∧
    (({ bees := [], dirs := [], containers := ["node_01".toList],
        tickets := [] } : World)).containers = worldA.containers ∧
    (({ bees := [], dirs := [], containers := ["node_01".toList],
        tickets := [] } : World)).tickets =
      worldA.tickets.filter (fun t => t.1 != 1) :=
  confirmed_delete_effects cfgA 110 1 worldA
    { bees := [], dirs := [], containers := ["node_01".toList], tickets := [] } (by rfl)

/-- C3 (counterexample): a successful provisioning run under cfgA whose
event trace is directory creation, container creation, registry write:
it contains no container-start event at all, so the container is not
started before the record is written. -/
theorem provisioning_never_starts_container :
    create_bee cfgA "nb".toList world0 = .ok (worldA1, traceA, beeInfoA) ∧
    traceA.all (fun e => !is_start_event e) = true ∧
    Event.recordAdded 1 ∈ traceA := by
  refine ⟨by rfl, by decide, by decide⟩

/-- C3 (amended): every successful provisioning run emits exactly the
ordered effects directory created, container created, record added —
the registry write comes last and after the container creation, and no
container-start step occurs. -/
theorem provisioning_event_order (config : Config) (nb : List Char) (w : World)
    (res : World × List Event × BeeInfo) (h : create_bee config nb w = .ok res) :
    ∃ p n i, res.2.1 =
      [Event.dirCreated p, Event.containerCreated n, Event.recordAdded i] := by
  unfold create_bee at h
  split at h
  · simp at h
  · split at h
    · simp at h
    · split at h
      · simp at h
      · split at h
        · simp at h
        · split at h
          · simp at h
          · split at h
            · simp at h
            · rw [Except.ok.injEq] at h
              exact ⟨_, _, _, (congrArg (fun r => r.2.1) h).symm⟩

/-- C3 (amended) witness: the theorem applied to the concrete run over
the empty state. -/
theorem provisioning_event_order_witness :
    ∃ p n i, (worldA1, traceA, beeInfoA).2.1 =
      [Event.dirCreated p, Event.containerCreated n, Event.recordAdded i] :=
  provisioning_event_order cfgA "nb".toList world0 (worldA1, traceA, beeInfoA) (by rfl)

/-- C4: for a registered node whose directory exists, the confirmed
delete succeeds exactly when a deletion ticket exists whose age is
strictly under 30 seconds, and otherwise — ticket absent or aged 30
seconds or more — it fails with the one confirmation-required error. -/
theorem confirmation_window (config : Config) (now bee_id : Nat) (w : World)
    (r : BeeData) (hreg : find_first bee_id w.bees = some r)
    (p : List (List Char)) (hpath : get_node_path config bee_id = .ok p)
    (hdir : p ∈ w.dirs) :
    ((delete_bee_handler config now bee_id w).2 = none ↔
      ∃ ts, ticket_lookup bee_id w.tickets = some ts ∧ ts ≤ now ∧ now - ts < 30) ∧
    (has_made_request now bee_id w.tickets = false →
      delete_bee_handler config now bee_id w = (w, some (.confirmationRequired bee_id))) := by
  constructor
  · rw [← ticket_window_iff]
    cases hhas : has_made_request now bee_id w.tickets
    · rw [delete_handler_no_ticket config now bee_id w r hreg hhas]
      simp
    · rw [delete_handler_ticket_ok config now bee_id w r hreg hhas,
        delete_service_ok config bee_id w p hpath hdir]
      simp
  · intro hhas
    exact delete_handler_no_ticket config now bee_id w r hreg hhas

/-- C4 witness: the theorem applied to worldA (ticket at time 100) at
time 110, inside the window. -/
theorem confirmation_window_witness :
    ((delete_bee_handler cfgA 110 1 worldA).2 = none ↔
      ∃ ts, ticket_lookup 1 worldA.tickets = some ts ∧ ts ≤ 110 ∧ 110 - ts < 30) ∧
    (has_made_request 110 1 worldA.tickets = false →
      delete_bee_handler cfgA 110 1 worldA = (worldA, some (.confirmationRequired 1))) :=
  confirmation_window cfgA 110 1 worldA (sample_bee 1) (by rfl) dirA1 (by rfl) (by decide)

/-- C5: when the delete step fails for a validly confirmed request, the
handler surfaces that error with the ledger untouched — the ticket and
its timestamp survive — so a later confirm inside the same window, once
the delete step can succeed, goes through without a new request. -/
theorem failed_delete_preserves_ticket (config : Config) (now bee_id : Nat) (w : World)
    (r : BeeData) (hreg : find_first bee_id w.bees = some r)
    (hhas : has_made_request now bee_id w.tickets = true)
    (e : BeeError) (hfail : (delete_bee_service config bee_id w).2 = some e) :
    delete_bee_handler config now bee_id w = (w, some e) ∧
    (delete_bee_handler config now bee_id w).1.tickets = w.tickets ∧
    ∀ now2 (w2 : World) (r2 : BeeData), w2.tickets = w.tickets →
      find_first bee_id w2.bees = some r2 →
      has_made_request now2 bee_id w.tickets = true →
      (delete_bee_service config bee_id w2).2 = none →
      (delete_bee_handler config now2 bee_id w2).2 = none := by
  have hw : delete_bee_handler config now bee_id w = (w, some e) := by
    rw [delete_handler_ticket_ok config now bee_id w r hreg hhas]
    have h1 := delete_service_fail_world config bee_id w e hfail
    rcases hsv : delete_bee_service config bee_id w with ⟨w1, oe⟩
    rw [hsv] at hfail h1
    simp only at hfail h1
    subst hfail h1
    rfl
  refine ⟨hw, by rw [hw], ?_⟩
  intro now2 w2 r2 ht hreg2 hhas2 hok2
  rw [delete_handler_ticket_ok config now2 bee_id w2 r2 hreg2 (by rw [ht]; exact hhas2)]
  rcases hsv2 : delete_bee_service config bee_id w2 with ⟨w3, oe2⟩
  rw [hsv2] at hok2
  simp only at hok2
  subst hok2
  rfl

/-- C5 witness: the theorem applied to worldB (directory missing, so
the delete step fails) at time 110, retried against worldA (directory
present, same ledger) at time 112. -/
theorem failed_delete_preserves_ticket_witness :
    delete_bee_handler cfgA 110 1 worldB = (worldB, some (.missingDir dirA1)) ∧
    (delete_bee_handler cfgA 110 1 worldB).1.tickets = worldB.tickets ∧
    (delete_bee_handler cfgA 112 1 worldA).2 = none := by
  have h := failed_delete_preserves_ticket cfgA 110 1 worldB (sample_bee 1) (by rfl)
    (by decide) (.missingDir dirA1) (by rfl)
  exact ⟨h.1, h.2.1, h.2.2 112 worldA (sample_bee 1) (by rfl) (by rfl) (by decide) (by rfl)⟩

end Ruche
